import Mathlib

/-!
Verification of the projector-controller core (CCA-AV/Projector_controller).

Shallow embedding of:
  * the vendor adapters `request_status` / `request_source` of
    `src/projectors/christie.py` and `src/projectors/epson.py`
    (HTTP traffic is modelled by passing the response as an explicit
    argument: `none` stands for a raised transport error, `some r`
    for a received body; for the christie adapter `r` is the value
    produced by `x.json()`, for the epson adapter it is `response.text`);
  * the command catalogs and `Projector.generate_command` /
    `Projector.on` / `Projector.off` / `Projector.status` of
    `src/projector.py`;
  * the shutdown write-back `_save_names_and_close` /
    `export_settings` of `src/main.py`;
  * the dynamic vendor-module registry (`importlib.import_module`).
-/

/-! ## A small JSON value model (what `x.json()` can produce) -/

inductive Json where
  | null
  | boolVal (b : Bool)
  | num (n : Int)
  | str (s : String)
  | arr (elems : List Json)
  | obj (fields : List (String × Json))

mutual

/-- Python `==` on JSON-decoded values, restricted to the comparisons the
adapters actually perform (list vs list, scalar vs scalar).  Python treats
`True == 1` and `False == 0` as true, and any cross-type comparison that is
not numeric as false.  The adapters never compare two dicts, so the
catch-all `false` for that case is unreachable in the embedded code. -/
def pyEq : Json → Json → Bool
  | .null, .null => true
  | .boolVal a, .boolVal b => a == b
  | .boolVal a, .num m => (if a then (1 : Int) else 0) == m
  | .num n, .boolVal b => n == (if b then (1 : Int) else 0)
  | .num n, .num m => n == m
  | .str a, .str b => a == b
  | .arr xs, .arr ys => pyEqList xs ys
  | _, _ => false

def pyEqList : List Json → List Json → Bool
  | [], [] => true
  | x :: xs, y :: ys => pyEq x y && pyEqList xs ys
  | _, _ => false

end

/-- Python `data[0]`: succeeds on a non-empty JSON array (first element) and
on a non-empty string (first character); everything else raises
(`KeyError` for a dict, `TypeError`/`IndexError` otherwise). -/
def jsonIndex0 : Json → Except Unit Json
  | .arr (x :: _) => .ok x
  | .str s =>
    match s.data with
    | c :: _ => .ok (.str ⟨[c]⟩)
    | [] => .error ()
  | _ => .error ()

/-- Python `d["val"]`-style lookup: succeeds only on a dict that has the
key; everything else raises. -/
def jsonField (key : String) : Json → Except Unit Json
  | .obj fields =>
    match fields.lookup key with
    | some v => .ok v
    | none => .error ()
  | _ => .error ()

/-- The three values the `request_source` adapters can produce in Python:
a string, a bool (`christie.request_source` returns `False` for an
unmapped code), or `None`. -/
inductive PyRet where
  | strVal (s : String)
  | boolVal (b : Bool)
  | noneVal
deriving DecidableEq

/-- Is the value Python `None`? -/
def PyRet.isNone : PyRet → Bool
  | .noneVal => true
  | _ => false

/-- Is the value a Python string? -/
def PyRet.isStr : PyRet → Bool
  | .strVal _ => true
  | _ => false

/-! ## christie adapter (`src/projectors/christie.py`) -/

/-- The `try:` body of `christie.request_status` (lines 43-51): read
`data = x.json()`, then test `data[0]["val"] == [1]`.  `resp = none`
models `requests.post`/`x.json()` raising. -/
def chrStatusTry (resp : Option Json) : Except Unit Bool :=
  match resp with
  | none => .error ()
  | some data =>
    match jsonIndex0 data with
    | .error e => .error e
    | .ok d0 =>
      match jsonField "val" d0 with
      | .error e => .error e
      | .ok v => .ok (pyEq v (.arr [.num 1]))

/-- `christie.request_status` (lines 42-54): the `except` clause folds every
raised exception into `False`.  The `user`/`password` arguments are
accepted and ignored, exactly as in the source. -/
def christie_request_status (user password ip : String) (resp : Option Json) : Bool :=
  match chrStatusTry resp with
  | .ok b => b
  | .error _ => false

/-- The if/elif chain of `christie.request_source` (lines 64-83) on the
extracted `source = data[0]["val"][0]`. -/
def christieSourceLabel (source : Json) : PyRet :=
  if pyEq source (.num 3) then .strVal "HDMI 1"
  else if pyEq source (.num 13) then .strVal "HDMI 2"
  else if pyEq source (.num 14) then .strVal "HDMI 3"
  else if pyEq source (.num 16) then .strVal "HDMI 4"
  else if pyEq source (.num 8) then .strVal "DVI-I"
  else if pyEq source (.num 9) then .strVal "DVI-D"
  else if pyEq source (.num 17) then .strVal "HDBaseT"
  else if pyEq source (.num 18) then .strVal "SDI"
  else if pyEq source (.num 19) then .strVal "DisplayPort"
  else .boolVal false

/-- The `try:` body of `christie.request_source` (lines 58-83). -/
def chrSourceTry (resp : Option Json) : Except Unit PyRet :=
  match resp with
  | none => .error ()
  | some data =>
    match jsonIndex0 data with
    | .error e => .error e
    | .ok d0 =>
      match jsonField "val" d0 with
      | .error e => .error e
      | .ok v =>
        match jsonIndex0 v with
        | .error e => .error e
        | .ok source => .ok (christieSourceLabel source)

/-- `christie.request_source` (lines 57-86): the `except` clause returns
`None`. -/
def christie_request_source (user password ip : String) (resp : Option Json) : PyRet :=
  match chrSourceTry resp with
  | .ok r => r
  | .error _ => .noneVal

/-! ## epson adapter (`src/projectors/epson.py`) -/

/-- The standby marker text tested by both epson probes (lines 61 and 80). -/
def standbyMarker : String := "The projector is currently on standby"

/-- First index of `pat` in the character list, if any. -/
def firstOccAux (pat : List Char) : List Char → Option Nat
  | [] => if pat.isPrefixOf ([] : List Char) then some 0 else none
  | c :: rest =>
    if pat.isPrefixOf (c :: rest) then some 0
    else (firstOccAux pat rest).map (· + 1)

/-- Python `pat in text` (contiguous substring test). -/
def containsSub (text pat : String) : Bool :=
  (firstOccAux pat.data text.data).isSome

/-- Python `text.find(pat)`: first index, or `-1` when absent. -/
def pyFind (text pat : String) : Int :=
  match firstOccAux pat.data text.data with
  | some n => Int.ofNat n
  | none => -1

/-- Python `text[a:b]` for non-negative clamped bounds. -/
def pySliceClamped (text : String) (a b : Nat) : String :=
  ⟨(text.data.drop a).take (b - a)⟩

/-- Python `s.strip(" ")`: remove spaces (only spaces) from both ends. -/
def pyStripSpaces (s : String) : String :=
  ⟨((s.data.dropWhile (· = ' ')).reverse.dropWhile (· = ' ')).reverse⟩

/-- Python `s.split("<")[0]`: everything before the first `<` (the whole
string when there is none); `split` always yields at least one piece, so
the `[0]` never raises. -/
def splitHeadLt (s : String) : String :=
  ⟨s.data.takeWhile (· ≠ '<')⟩

/-- `epson.request_status` (lines 50-67): `False` on a raised
`RequestException` (`resp = none`) or when the body contains the standby
marker, `True` for every other received body. -/
def epson_request_status (user password ip : String) (resp : Option String) : Bool :=
  match resp with
  | none => false
  | some text => if containsSub text standbyMarker then false else true

/-- The scrape of `epson.request_source` line 85:
`text[idx+155:idx+165].strip(" ").split("<")[0]` with
`idx = text.find("Source")` (so the window starts at offset 154 when the
anchor is absent and `idx = -1`).  Python slicing never raises. -/
def epsonScrape (text : String) : String :=
  let idx := pyFind text "Source"
  splitHeadLt (pyStripSpaces (pySliceClamped text (idx + 155).toNat (idx + 165).toNat))

/-- `epson.request_source` (lines 69-88): `None` on a raised
`RequestException` or a standby body, otherwise the scraped string. -/
def epson_request_source (user password ip : String) (resp : Option String) : PyRet :=
  match resp with
  | none => .noneVal
  | some text =>
    if containsSub text standbyMarker then .noneVal
    else .strVal (epsonScrape text)

/-! ## Command catalogs and URL assembly (`src/projector.py`) -/

structure LoginInfo where
  username : String
  password : String

/-- One entry of a vendor's `commands` dict (the dict literals in
`christie.py` lines 10-39 and `epson.py` lines 15-40). -/
structure CommandSpec where
  ctype : String
  mode : String
  duplicate : Bool
  path : String
  default_kvjoiner : String
  default_kjoiner : String
  params : List (String × String)

/-- The module-level data of one vendor module that `Projector` uses. -/
structure VendorLib where
  default_login : LoginInfo
  commands : List (String × CommandSpec)

/-- `projectors/christie.py`: `default_login` (line 4) and `commands`
(lines 10-39); `str(0x01) = "1"`, `str(0x1213) = "4627"`,
`str(0x001D) = "29"`, `str(0x001E) = "30"`. -/
def christieLib : VendorLib :=
  { default_login := { username := "user", password := "1978" }
    commands :=
      [ ("power_on",
         { ctype := "power", mode := "post", duplicate := false
           path := "/cgi-bin/webctrl.cgi.elf?&"
           default_kvjoiner := ":", default_kjoiner := ","
           params := [("p", Nat.repr 0x01), ("c", Nat.repr 0x1213),
                      ("v", Nat.repr 2), ("v", Nat.repr 0x001D)] })
      , ("power_off",
         { ctype := "power", mode := "post", duplicate := false
           path := "/cgi-bin/webctrl.cgi.elf?&"
           default_kvjoiner := ":", default_kjoiner := ","
           params := [("p", Nat.repr 0x01), ("c", Nat.repr 0x1213),
                      ("v", Nat.repr 2), ("v", Nat.repr 0x001E)] }) ] }

/-- `projectors/epson.py`: `default_login` (lines 4-7) and `commands`
(lines 15-40). -/
def epsonLib : VendorLib :=
  { default_login := { username := "EPSONWEB", password := "ADMIN" }
    commands :=
      [ ("power_on",
         { ctype := "power", mode := "get", duplicate := false
           path := "/cgi-bin/directsend?"
           default_kvjoiner := "=", default_kjoiner := "&"
           params := [("KEY", "3B"), ("_", "$$time")] })
      , ("power_off",
         { ctype := "power", mode := "get", duplicate := true
           path := "/cgi-bin/directsend?"
           default_kvjoiner := "=", default_kjoiner := "&"
           params := [("KEY", "3B"), ("_", "$$time")] }) ] }

/-- Python `url.strip(chars)` on character lists: remove every leading and
every trailing character that occurs in `chars`. -/
def stripList (l chars : List Char) : List Char :=
  ((l.dropWhile (chars.contains ·)).reverse.dropWhile (chars.contains ·)).reverse

/-- Python `url.strip(chars)`. -/
def pyStripChars (s chars : String) : String :=
  ⟨stripList s.data chars.data⟩

/-- Line 21-22 of `src/projector.py`: the `"$$time"` sentinel is replaced
by `self.projector_lib.time()`, i.e. `str(round(time.time()*1000))`; the
call-time clock reading (in milliseconds) is the explicit parameter `t`. -/
def resolveParam (t : Nat) (value : String) : String :=
  if value = "$$time" then Nat.repr t else value

/-- `Projector.generate_command` (`src/projector.py` lines 13-25): build
`http://user:password@ip` + path, append `key + kvjoiner + value +
kjoiner` for every parameter in order, then `strip` the pair joiner;
return the URL together with the command's mode and duplicate flag.
`none` models the `KeyError` raised on an unknown command name. -/
def generate_command (ip : String) (lib : VendorLib) (cmdName : String) (t : Nat) :
    Option (String × String × Bool) :=
  (lib.commands.lookup cmdName).map fun command =>
    let base := "http://" ++ lib.default_login.username ++ ":" ++
      lib.default_login.password ++ "@" ++ ip ++ command.path
    let url := command.params.foldl
      (fun url param =>
        url ++ param.1 ++ command.default_kvjoiner ++
          resolveParam t param.2 ++ command.default_kjoiner)
      base
    (pyStripChars url command.default_kjoiner, command.mode, command.duplicate)

/-- The URLs dispatched by `Projector.on`/`Projector.off`
(`src/projector.py` lines 27-53): assemble and send once; when the
command's `duplicate` flag is set, sleep 500 ms, reassemble with a fresh
timestamp (`t2`, the clock reading after the sleep) and send again. -/
def sendSequence (ip : String) (lib : VendorLib) (cmdName : String) (t1 t2 : Nat) :
    List String :=
  match generate_command ip lib cmdName t1, generate_command ip lib cmdName t2 with
  | some (url1, _, dup), some (url2, _, _) =>
    if dup then [url1, url2] else [url1]
  | _, _ => []

/-- `Projector.on` (lines 27-39), reduced to its dispatched URLs. -/
def on_requests (ip : String) (lib : VendorLib) (t1 t2 : Nat) : List String :=
  sendSequence ip lib "power_on" t1 t2

/-- `Projector.off` (lines 41-53), reduced to its dispatched URLs. -/
def off_requests (ip : String) (lib : VendorLib) (t1 t2 : Nat) : List String :=
  sendSequence ip lib "power_off" t1 t2

/-! ## The vendor registry and `Projector.__init__` -/

/-- Python identifier characters. -/
def isIdentStart (c : Char) : Bool := c.isAlpha || c = '_'

def isIdentChar (c : Char) : Bool := c.isAlphanum || c = '_'

/-- Python's keywords plus its soft keywords (`match`, `case`, `type`):
the only words that may legally stand directly before or after another
bare name. -/
def pythonKeywords : List String :=
  ["False", "None", "True", "and", "as", "assert", "async", "await",
   "break", "class", "continue", "def", "del", "elif", "else", "except",
   "finally", "for", "from", "global", "if", "import", "in", "is",
   "lambda", "nonlocal", "not", "or", "pass", "raise", "return", "try",
   "while", "with", "yield", "match", "case", "type"]

/-- Scanner for one Python source line that contains no string literal and
no comment: `true` when the line contains two identifier tokens separated
only by spaces, neither of which is a (soft) keyword.  Such a line can
never parse: Python has no juxtaposition of two plain names.  Fuel-based
recursion; `fuel = l.length` always suffices. -/
def juxtaScanAux : Nat → List Char → Bool
  | 0, _ => false
  | _ + 1, [] => false
  | fuel + 1, c :: rest =>
    if isIdentStart c then
      let tok : List Char := c :: rest.takeWhile isIdentChar
      let rest1 := rest.dropWhile isIdentChar
      let spaces := rest1.takeWhile (· = ' ')
      let rest2 := rest1.dropWhile (· = ' ')
      match rest2 with
      | d :: rest3 =>
        if isIdentStart d && !spaces.isEmpty &&
            !pythonKeywords.contains ⟨tok⟩ &&
            !pythonKeywords.contains ⟨d :: rest3.takeWhile isIdentChar⟩ then
          true
        else juxtaScanAux fuel rest2
      | [] => false
    else juxtaScanAux fuel rest

def hasJuxtaposedNames (line : String) : Bool :=
  juxtaScanAux line.data.length line.data

/-- Line 43 of `projectors/epson.py`, verbatim: top-level module text that
is not a comment and not inside any string literal. -/
def epsonStrayLine43 : String :=
  "Video (cycle between HDMI1, HDMI2, S-Video, Video) : 46"

/-- `importlib.import_module("projectors." + name)` as performed by
`Projector.__init__` (`src/projector.py` line 11).  `projectors/christie.py`
parses and evaluates to `christieLib`; `projectors/epson.py` contains
stray top-level text at lines 42-48 that is not valid Python (line 43
juxtaposes the bare names `cycle between`, see `epsonStrayLine43` and
`hasJuxtaposedNames`; line 45 also contains the invalid literal `8A`),
so importing it raises `SyntaxError` before any definition is evaluated;
any other name has no module file and raises `ModuleNotFoundError`. -/
def import_module : String → Except String VendorLib
  | "christie" => .ok christieLib
  | "epson" => .error "SyntaxError"
  | _ => .error "ModuleNotFoundError"

/-- The runtime `Projector` object.  `ip` and `projector_type` are set by
`__init__` (`src/projector.py` lines 8-11); `projector_lib` is the
imported vendor module; the two override fields are the
`_username_override`/`_password_override` attributes that
`src/main.py` (`_on_settings_save`, lines 750-752) stores on the object. -/
structure Projector where
  ip : String
  projector_type : String
  projector_lib : VendorLib
  username_override : Option String
  password_override : Option String

/-- `Projector.__init__(ip, projector_type)` (lines 8-11): resolves the
vendor module by name; a failed import propagates out of the
constructor. -/
def Projector.init (ip projector_type : String) : Except String Projector :=
  (import_module projector_type).map fun lib =>
    { ip := ip, projector_type := projector_type, projector_lib := lib
      username_override := none, password_override := none }

/-- The `(user, password, ip)` arguments that `Projector.status`
(`src/projector.py` lines 55-59) passes to the vendor's `request_status`:
always the vendor module's `default_login`, never the override fields. -/
def Projector.statusCredentials (p : Projector) : String × String × String :=
  (p.projector_lib.default_login.username,
   p.projector_lib.default_login.password, p.ip)

/-- Modelled from the spec: the effective credentials of §3
("override else VendorProfile default"); no such resolution exists in
`src/projector.py`. -/
def spec_effective_credentials (p : Projector) : String × String :=
  (p.username_override.getD p.projector_lib.default_login.username,
   p.password_override.getD p.projector_lib.default_login.password)

/-! ## `set_source` on a cycle-only catalog (modelled from the spec) -/

inductive CycleOutcome where
  | ok (presses : Nat)
  | notInList
  | exhausted (presses : Nat)
deriving DecidableEq

/-- One press-then-probe round of the cycle loop: dispatch the cycle
command (press number `pressed + 1`), then ask the device's `source()`
probe; stop when it reports the target, give up when as many presses as
the target list is long have been issued.  `observe k` is the label the
device reports after `k` presses. -/
def cycleLoopAux (name : String) (observe : Nat → Option String) :
    Nat → Nat → CycleOutcome
  | 0, pressed => .exhausted pressed
  | fuel + 1, pressed =>
    if observe (pressed + 1) = some name then .ok (pressed + 1)
    else cycleLoopAux name observe fuel (pressed + 1)

/-- Modelled from the spec: `Projector.set_source(name)` for catalogs that
only expose a `source_cycle` command (§4.3).  The method is called by
`src/main.py` (line 382) but is absent from `src/projector.py`, so it is
modelled from the spec's words: fail with a distinguishable condition,
before issuing any request, when `name` is not in the cycle's target
list; otherwise repeatedly dispatch the cycle command until the `source()`
probe reports `name`, issuing at most `targets.length` presses. -/
def set_source_cycle (targets : List String) (name : String)
    (observe : Nat → Option String) : CycleOutcome :=
  if targets.contains name then cycleLoopAux name observe targets.length 0
  else .notInList

/-! ## Shutdown write-back (`src/main.py`) -/

/-- A persisted JSON object, insertion-ordered as Python dicts are. -/
abbrev Dict := List (String × Json)

/-- Lookup in a persisted object. -/
def dictGet : Dict → String → Option Json
  | [], _ => none
  | (k', v') :: rest, k => if k = k' then some v' else dictGet rest k

/-- Python `d[k] = v` on an insertion-ordered dict: an existing key keeps
its position, a new key is appended at the end. -/
def setKey : Dict → String → Json → Dict
  | [], k, v => [(k, v)]
  | (k', v') :: rest, k, v =>
    if k' = k then (k, v) :: rest else (k', v') :: setKey rest k v

/-- Python `d.update(u)`: assign every pair of `u` in order. -/
def dictUpdate : Dict → Dict → Dict
  | d, [] => d
  | d, kv :: rest => dictUpdate (setKey d kv.1 kv.2) rest

/-- The data behind `ProjectorControllerFrame.export_settings`
(`src/main.py` lines 781-788): the current name-entry text and the
frame's `meta` values. -/
structure FrameSettings where
  name : String
  ip : String
  projector_type : String
  username : String
  password : String

/-- The dict literal returned by `export_settings`. -/
def FrameSettings.toDict (f : FrameSettings) : Dict :=
  [("name", .str f.name), ("ip", .str f.ip),
   ("projector_type", .str f.projector_type),
   ("username", .str f.username), ("password", .str f.password)]

/-- The update loop of `_save_names_and_close` (`src/main.py` lines
856-861): for each frame index in order, if a corresponding entry exists
in the loaded `resolved` array, `resolved[idx].update(frame.export_settings())`;
entries beyond the frame list (and frames beyond the entry list) are left
alone, and no entry is ever added or removed. -/
def save_names_write_back : List Dict → List FrameSettings → List Dict
  | [], _ => []
  | resolved, [] => resolved
  | entry :: rest, f :: fs => dictUpdate entry f.toDict :: save_names_write_back rest fs

/-- The five keys `export_settings` writes. -/
def exportedKeys : List String := ["name", "ip", "projector_type", "username", "password"]

/-! ## Claim-side (spec-worded) URL assembly, for the refinement claim C4 -/

/-- The spec's assembly postprocessing, §4.3: "strip a single trailing
`pair_joiner` if present" (contrast with Python `strip`, which removes
every leading and trailing joiner character). -/
def removeTrailingJoiner (s jn : String) : String :=
  match jn.data with
  | [j] =>
    match s.data.reverse with
    | c :: rest => if c = j then ⟨rest.reverse⟩ else s
    | [] => s
  | _ => s

/-- The claim's assembly algorithm, word for word: start from the
credential-embedded base and the command's `path`, append
`key + kv_joiner + resolved value + pair_joiner` for each pair of
`param_list` in order, then remove the trailing `pair_joiner`. -/
def claim_assemble (ip : String) (lib : VendorLib) (cmdName : String) (t : Nat) :
    Option String :=
  (lib.commands.lookup cmdName).map fun command =>
    let base := "http://" ++ lib.default_login.username ++ ":" ++
      lib.default_login.password ++ "@" ++ ip ++ command.path
    removeTrailingJoiner
      (base ++ String.join (command.params.map fun param =>
        param.1 ++ command.default_kvjoiner ++ resolveParam t param.2 ++
          command.default_kjoiner))
      command.default_kjoiner

/-- Does the string end with a character of `chars`? -/
def endsInJoiner (s chars : String) : Bool :=
  match s.data.getLast? with
  | some c => chars.data.contains c
  | none => false

/-! ## Helper lemmas: strings, Python `strip`, decimal digits -/

theorem stringExt {s t : String} (h : s.data = t.data) : s = t := by
  cases s; cases t; simp only at h; rw [h]

theorem str_assoc (a b c : String) : a ++ b ++ c = a ++ (b ++ c) := by
  apply stringExt
  show (a.data ++ b.data) ++ c.data = a.data ++ (b.data ++ c.data)
  exact List.append_assoc a.data b.data c.data

theorem stripList_shape (chars : List Char) (h0 : Char) (L R : List Char) (jn : Char)
    (hh : chars.contains h0 = false) (hj : chars.contains jn = true)
    (hR : R ≠ []) (hl : ∀ c, R.getLast? = some c → chars.contains c = false) :
    stripList (h0 :: (L ++ (R ++ [jn]))) chars = h0 :: (L ++ R) := by
  obtain ⟨c, hc⟩ : ∃ c, R.getLast? = some c := by
    cases hgl : R.getLast? with
    | none => exact absurd (List.getLast?_eq_none_iff.mp hgl) hR
    | some c => exact ⟨c, rfl⟩
  have hcc : chars.contains c = false := hl c hc
  obtain ⟨Rd, rfl⟩ : ∃ Rd, R = Rd ++ [c] :=
    ⟨R.dropLast, (List.dropLast_append_getLast? c hc).symm⟩
  unfold stripList
  rw [List.dropWhile_cons_of_neg (by rw [hh]; simp)]
  have hrev : (h0 :: (L ++ ((Rd ++ [c]) ++ [jn]))).reverse
      = jn :: c :: ((L ++ Rd).reverse ++ [h0]) := by simp
  rw [hrev, List.dropWhile_cons_of_pos (by exact hj),
    List.dropWhile_cons_of_neg (by rw [hcc]; simp)]
  simp

theorem stripList_append_joiner (l chars : List Char) (jn : Char)
    (hj : chars.contains jn = true)
    (hhead : ∀ c, l.head? = some c → chars.contains c = false)
    (hlast : ∀ c, l.getLast? = some c → chars.contains c = false) :
    stripList (l ++ [jn]) chars = l := by
  match l with
  | [] =>
    unfold stripList
    rw [List.nil_append, List.dropWhile_cons_of_pos (by exact hj)]
    simp
  | [h0] =>
    unfold stripList
    rw [show ([h0] ++ [jn] : List Char) = h0 :: ([jn] : List Char) from rfl]
    rw [List.dropWhile_cons_of_neg (by rw [hhead h0 rfl]; simp)]
    rw [show (h0 :: ([jn] : List Char)).reverse = jn :: [h0] from by simp]
    rw [List.dropWhile_cons_of_pos (by exact hj)]
    rw [List.dropWhile_cons_of_neg (by rw [hhead h0 rfl]; simp)]
    simp
  | h0 :: a :: l'' =>
    have hshape : ((h0 :: a :: l'') ++ [jn] : List Char)
        = h0 :: (([] : List Char) ++ ((a :: l'') ++ [jn])) := by simp
    rw [hshape,
      stripList_shape chars h0 [] (a :: l'') jn (hhead h0 rfl) hj (by simp)
        (fun c hc => hlast c (by rw [List.getLast?_cons_cons]; exact hc))]
    simp

theorem pyStrip_append_joiner (S S' chars : String) (jn : Char)
    (hS : S'.data = S.data ++ [jn])
    (hj : chars.data.contains jn = true)
    (hhead : ∀ c, S.data.head? = some c → chars.data.contains c = false)
    (hlast : ∀ c, S.data.getLast? = some c → chars.data.contains c = false) :
    pyStripChars S' chars = S := by
  show (⟨stripList S'.data chars.data⟩ : String) = S
  rw [hS, stripList_append_joiner S.data chars.data jn hj hhead hlast]

theorem digitChar_ok (m : Nat) :
    ("0123456789abcdef*".data).contains (Nat.digitChar m) = true := by
  rcases Nat.lt_or_ge m 16 with h | h
  · interval_cases m <;> decide
  · have hstar : Nat.digitChar m = '*' := by
      unfold Nat.digitChar
      repeat rw [if_neg (by omega)]
    rw [hstar]
    decide

theorem toDigitsCore_chars (b : Nat) (P : Char → Prop) (hd : ∀ m, P (Nat.digitChar m)) :
    ∀ (fuel n : Nat) (ds : List Char), (∀ c ∈ ds, P c) →
      ∀ c ∈ Nat.toDigitsCore b fuel n ds, P c := by
  intro fuel
  induction fuel with
  | zero =>
    intro n ds hds c hcmem
    simp only [Nat.toDigitsCore] at hcmem
    exact hds c hcmem
  | succ fuel ih =>
    intro n ds hds c hcmem
    simp only [Nat.toDigitsCore] at hcmem
    by_cases hb : n / b = 0
    · rw [if_pos hb] at hcmem
      rcases List.mem_cons.mp hcmem with h | h
      · exact h ▸ hd _
      · exact hds c h
    · rw [if_neg hb] at hcmem
      refine ih (n / b) _ ?_ c hcmem
      intro x hx
      rcases List.mem_cons.mp hx with h | h
      · exact h ▸ hd _
      · exact hds x h

theorem repr_chars (n : Nat) :
    ∀ c ∈ (Nat.repr n).data, ("0123456789abcdef*".data).contains c = true := by
  intro c hc
  exact toDigitsCore_chars 10
    (fun c => ("0123456789abcdef*".data).contains c = true)
    (fun m => digitChar_ok m) (n + 1) n [] (by simp) c hc

theorem toDigitsCore_length_ge (b : Nat) :
    ∀ (fuel n : Nat) (ds : List Char), ds.length ≤ (Nat.toDigitsCore b fuel n ds).length := by
  intro fuel
  induction fuel with
  | zero => intro n ds; simp [Nat.toDigitsCore]
  | succ fuel ih =>
    intro n ds
    simp only [Nat.toDigitsCore]
    by_cases hb : n / b = 0
    · rw [if_pos hb]; simp
    · rw [if_neg hb]
      calc ds.length ≤ (Nat.digitChar (n % b) :: ds).length := by simp
        _ ≤ _ := ih (n / b) _

theorem repr_ne_nil (n : Nat) : (Nat.repr n).data ≠ [] := by
  show Nat.toDigits 10 n ≠ []
  unfold Nat.toDigits
  simp only [Nat.toDigitsCore]
  by_cases hb : n / 10 = 0
  · rw [if_pos hb]; simp
  · rw [if_neg hb]
    intro hcon
    have h2 := toDigitsCore_length_ge 10 n (n / 10) [Nat.digitChar (n % 10)]
    rw [hcon] at h2
    simp at h2

theorem repr_getLast_hex (t : Nat) (c : Char)
    (hc : (Nat.repr t).data.getLast? = some c) :
    ("0123456789abcdef*".data).contains c = true := by
  have hcm : c ∈ (Nat.repr t).data := by
    obtain ⟨hne, heq⟩ := List.mem_getLast?_eq_getLast (Option.mem_def.mpr hc)
    exact heq ▸ List.getLast_mem hne
  exact repr_chars t c hcm

/-! ## Closed forms of the generated power URLs -/

/-- The URL both epson power commands assemble at clock reading `t`
(both send key code 3B). -/
def epsonPowerUrl (ip : String) (t : Nat) : String :=
  "http://EPSONWEB:ADMIN@" ++ ip ++ "/cgi-bin/directsend?KEY=3B&_=" ++ Nat.repr t

def christieOnUrl (ip : String) : String :=
  "http://user:1978@" ++ ip ++ "/cgi-bin/webctrl.cgi.elf?&p:1,c:4627,v:2,v:29"

def christieOffUrl (ip : String) : String :=
  "http://user:1978@" ++ ip ++ "/cgi-bin/webctrl.cgi.elf?&p:1,c:4627,v:2,v:30"

theorem epsonPowerUrl_strip (ip : String) (t : Nat) :
    pyStripChars (epsonPowerUrl ip t ++ "&") "&" = epsonPowerUrl ip t := by
  have hdata : (epsonPowerUrl ip t).data
      = ("http://EPSONWEB:ADMIN@" ++ ip ++ "/cgi-bin/directsend?KEY=3B&_=").data
          ++ (Nat.repr t).data := rfl
  have hhead : ∀ c, (epsonPowerUrl ip t).data.head? = some c →
      ("&".data).contains c = false := by
    intro c hc
    simp only [show (epsonPowerUrl ip t).data.head? = some 'h' from rfl] at hc
    rw [← Option.some_inj.mp hc]
    decide
  have hlast : ∀ c, (epsonPowerUrl ip t).data.getLast? = some c →
      ("&".data).contains c = false := by
    intro c hc
    rw [hdata, List.getLast?_append_of_ne_nil _ (repr_ne_nil t)] at hc
    have hmem : c ∈ "0123456789abcdef*".data := by
      have := repr_getLast_hex t c hc
      simpa using this
    fin_cases hmem <;> decide
  exact pyStrip_append_joiner (epsonPowerUrl ip t) (epsonPowerUrl ip t ++ "&") "&" '&'
    rfl (by decide) hhead hlast

theorem christieOnUrl_strip (ip : String) :
    pyStripChars (christieOnUrl ip ++ ",") "," = christieOnUrl ip := by
  have hdata : (christieOnUrl ip).data
      = ("http://user:1978@" ++ ip).data
          ++ ("/cgi-bin/webctrl.cgi.elf?&p:1,c:4627,v:2,v:29".data) := rfl
  have hhead : ∀ c, (christieOnUrl ip).data.head? = some c →
      (",".data).contains c = false := by
    intro c hc
    simp only [show (christieOnUrl ip).data.head? = some 'h' from rfl] at hc
    rw [← Option.some_inj.mp hc]
    decide
  have hlast : ∀ c, (christieOnUrl ip).data.getLast? = some c →
      (",".data).contains c = false := by
    intro c hc
    rw [hdata, List.getLast?_append_of_ne_nil _ (by decide)] at hc
    simp only [show ("/cgi-bin/webctrl.cgi.elf?&p:1,c:4627,v:2,v:29".data).getLast?
        = some '9' from rfl] at hc
    rw [← Option.some_inj.mp hc]
    decide
  exact pyStrip_append_joiner (christieOnUrl ip) (christieOnUrl ip ++ ",") "," ','
    rfl (by decide) hhead hlast

theorem christieOffUrl_strip (ip : String) :
    pyStripChars (christieOffUrl ip ++ ",") "," = christieOffUrl ip := by
  have hdata : (christieOffUrl ip).data
      = ("http://user:1978@" ++ ip).data
          ++ ("/cgi-bin/webctrl.cgi.elf?&p:1,c:4627,v:2,v:30".data) := rfl
  have hhead : ∀ c, (christieOffUrl ip).data.head? = some c →
      (",".data).contains c = false := by
    intro c hc
    simp only [show (christieOffUrl ip).data.head? = some 'h' from rfl] at hc
    rw [← Option.some_inj.mp hc]
    decide
  have hlast : ∀ c, (christieOffUrl ip).data.getLast? = some c →
      (",".data).contains c = false := by
    intro c hc
    rw [hdata, List.getLast?_append_of_ne_nil _ (by decide)] at hc
    simp only [show ("/cgi-bin/webctrl.cgi.elf?&p:1,c:4627,v:2,v:30".data).getLast?
        = some '0' from rfl] at hc
    rw [← Option.some_inj.mp hc]
    decide
  exact pyStrip_append_joiner (christieOffUrl ip) (christieOffUrl ip ++ ",") "," ','
    rfl (by decide) hhead hlast

theorem epson_gen_off (ip : String) (t : Nat) :
    generate_command ip epsonLib "power_off" t = some (epsonPowerUrl ip t, "get", true) := by
  have h1 : generate_command ip epsonLib "power_off" t =
      some (pyStripChars
        ("http://" ++ "EPSONWEB" ++ ":" ++ "ADMIN" ++ "@" ++ ip ++ "/cgi-bin/directsend?" ++
          "KEY" ++ "=" ++ resolveParam t "3B" ++ "&" ++ "_" ++ "=" ++
          resolveParam t "$$time" ++ "&") "&",
        "get", true) := rfl
  have h2 : ("http://" ++ "EPSONWEB" ++ ":" ++ "ADMIN" ++ "@" ++ ip ++ "/cgi-bin/directsend?" ++
      "KEY" ++ "=" ++ resolveParam t "3B" ++ "&" ++ "_" ++ "=" ++
      resolveParam t "$$time" ++ "&")
      = epsonPowerUrl ip t ++ "&" := by
    simp only [epsonPowerUrl, str_assoc]
    rfl
  rw [h1, h2, epsonPowerUrl_strip ip t]

theorem epson_gen_on (ip : String) (t : Nat) :
    generate_command ip epsonLib "power_on" t = some (epsonPowerUrl ip t, "get", false) := by
  have h1 : generate_command ip epsonLib "power_on" t =
      some (pyStripChars
        ("http://" ++ "EPSONWEB" ++ ":" ++ "ADMIN" ++ "@" ++ ip ++ "/cgi-bin/directsend?" ++
          "KEY" ++ "=" ++ resolveParam t "3B" ++ "&" ++ "_" ++ "=" ++
          resolveParam t "$$time" ++ "&") "&",
        "get", false) := rfl
  have h2 : ("http://" ++ "EPSONWEB" ++ ":" ++ "ADMIN" ++ "@" ++ ip ++ "/cgi-bin/directsend?" ++
      "KEY" ++ "=" ++ resolveParam t "3B" ++ "&" ++ "_" ++ "=" ++
      resolveParam t "$$time" ++ "&")
      = epsonPowerUrl ip t ++ "&" := by
    simp only [epsonPowerUrl, str_assoc]
    rfl
  rw [h1, h2, epsonPowerUrl_strip ip t]

theorem christie_gen_on (ip : String) (t : Nat) :
    generate_command ip christieLib "power_on" t = some (christieOnUrl ip, "post", false) := by
  have h1 : generate_command ip christieLib "power_on" t =
      some (pyStripChars
        ("http://" ++ "user" ++ ":" ++ "1978" ++ "@" ++ ip ++ "/cgi-bin/webctrl.cgi.elf?&" ++
          "p" ++ ":" ++ resolveParam t (Nat.repr 0x01) ++ "," ++
          "c" ++ ":" ++ resolveParam t (Nat.repr 0x1213) ++ "," ++
          "v" ++ ":" ++ resolveParam t (Nat.repr 2) ++ "," ++
          "v" ++ ":" ++ resolveParam t (Nat.repr 0x001D) ++ ",") ",",
        "post", false) := rfl
  have h2 : ("http://" ++ "user" ++ ":" ++ "1978" ++ "@" ++ ip ++ "/cgi-bin/webctrl.cgi.elf?&" ++
      "p" ++ ":" ++ resolveParam t (Nat.repr 0x01) ++ "," ++
      "c" ++ ":" ++ resolveParam t (Nat.repr 0x1213) ++ "," ++
      "v" ++ ":" ++ resolveParam t (Nat.repr 2) ++ "," ++
      "v" ++ ":" ++ resolveParam t (Nat.repr 0x001D) ++ ",")
      = christieOnUrl ip ++ "," := by
    simp only [christieOnUrl, str_assoc]
    rfl
  rw [h1, h2, christieOnUrl_strip ip]

theorem christie_gen_off (ip : String) (t : Nat) :
    generate_command ip christieLib "power_off" t = some (christieOffUrl ip, "post", false) := by
  have h1 : generate_command ip christieLib "power_off" t =
      some (pyStripChars
        ("http://" ++ "user" ++ ":" ++ "1978" ++ "@" ++ ip ++ "/cgi-bin/webctrl.cgi.elf?&" ++
          "p" ++ ":" ++ resolveParam t (Nat.repr 0x01) ++ "," ++
          "c" ++ ":" ++ resolveParam t (Nat.repr 0x1213) ++ "," ++
          "v" ++ ":" ++ resolveParam t (Nat.repr 2) ++ "," ++
          "v" ++ ":" ++ resolveParam t (Nat.repr 0x001E) ++ ",") ",",
        "post", false) := rfl
  have h2 : ("http://" ++ "user" ++ ":" ++ "1978" ++ "@" ++ ip ++ "/cgi-bin/webctrl.cgi.elf?&" ++
      "p" ++ ":" ++ resolveParam t (Nat.repr 0x01) ++ "," ++
      "c" ++ ":" ++ resolveParam t (Nat.repr 0x1213) ++ "," ++
      "v" ++ ":" ++ resolveParam t (Nat.repr 2) ++ "," ++
      "v" ++ ":" ++ resolveParam t (Nat.repr 0x001E) ++ ",")
      = christieOffUrl ip ++ "," := by
    simp only [christieOffUrl, str_assoc]
    rfl
  rw [h1, h2, christieOffUrl_strip ip]

theorem removeTrailingJoiner_append (S : String) (j : Char) :
    removeTrailingJoiner (S ++ ⟨[j]⟩) ⟨[j]⟩ = S := by
  have h : (S ++ (⟨[j]⟩ : String)).data.reverse = j :: S.data.reverse := by
    show (S.data ++ [j]).reverse = j :: S.data.reverse
    simp
  unfold removeTrailingJoiner
  rw [h]
  simp

theorem epson_claim_off (ip : String) (t : Nat) :
    claim_assemble ip epsonLib "power_off" t = some (epsonPowerUrl ip t) := by
  have h1 : claim_assemble ip epsonLib "power_off" t =
      some (removeTrailingJoiner
        (("http://" ++ "EPSONWEB" ++ ":" ++ "ADMIN" ++ "@" ++ ip ++ "/cgi-bin/directsend?") ++
          String.join ["KEY" ++ "=" ++ resolveParam t "3B" ++ "&",
                       "_" ++ "=" ++ resolveParam t "$$time" ++ "&"]) "&") := rfl
  have h2 : (("http://" ++ "EPSONWEB" ++ ":" ++ "ADMIN" ++ "@" ++ ip ++ "/cgi-bin/directsend?") ++
      String.join ["KEY" ++ "=" ++ resolveParam t "3B" ++ "&",
                   "_" ++ "=" ++ resolveParam t "$$time" ++ "&"])
      = epsonPowerUrl ip t ++ "&" := by
    simp only [String.join, List.foldl, epsonPowerUrl, str_assoc]
    rfl
  rw [h1, h2]
  exact congrArg some (removeTrailingJoiner_append (epsonPowerUrl ip t) '&')

theorem epson_claim_on (ip : String) (t : Nat) :
    claim_assemble ip epsonLib "power_on" t = some (epsonPowerUrl ip t) := by
  have h1 : claim_assemble ip epsonLib "power_on" t =
      some (removeTrailingJoiner
        (("http://" ++ "EPSONWEB" ++ ":" ++ "ADMIN" ++ "@" ++ ip ++ "/cgi-bin/directsend?") ++
          String.join ["KEY" ++ "=" ++ resolveParam t "3B" ++ "&",
                       "_" ++ "=" ++ resolveParam t "$$time" ++ "&"]) "&") := rfl
  have h2 : (("http://" ++ "EPSONWEB" ++ ":" ++ "ADMIN" ++ "@" ++ ip ++ "/cgi-bin/directsend?") ++
      String.join ["KEY" ++ "=" ++ resolveParam t "3B" ++ "&",
                   "_" ++ "=" ++ resolveParam t "$$time" ++ "&"])
      = epsonPowerUrl ip t ++ "&" := by
    simp only [String.join, List.foldl, epsonPowerUrl, str_assoc]
    rfl
  rw [h1, h2]
  exact congrArg some (removeTrailingJoiner_append (epsonPowerUrl ip t) '&')

theorem christie_claim_on (ip : String) (t : Nat) :
    claim_assemble ip christieLib "power_on" t = some (christieOnUrl ip) := by
  have h1 : claim_assemble ip christieLib "power_on" t =
      some (removeTrailingJoiner
        (("http://" ++ "user" ++ ":" ++ "1978" ++ "@" ++ ip ++ "/cgi-bin/webctrl.cgi.elf?&") ++
          String.join ["p" ++ ":" ++ resolveParam t (Nat.repr 0x01) ++ ",",
                       "c" ++ ":" ++ resolveParam t (Nat.repr 0x1213) ++ ",",
                       "v" ++ ":" ++ resolveParam t (Nat.repr 2) ++ ",",
                       "v" ++ ":" ++ resolveParam t (Nat.repr 0x001D) ++ ","]) ",") := rfl
  have h2 : (("http://" ++ "user" ++ ":" ++ "1978" ++ "@" ++ ip ++ "/cgi-bin/webctrl.cgi.elf?&") ++
      String.join ["p" ++ ":" ++ resolveParam t (Nat.repr 0x01) ++ ",",
                   "c" ++ ":" ++ resolveParam t (Nat.repr 0x1213) ++ ",",
                   "v" ++ ":" ++ resolveParam t (Nat.repr 2) ++ ",",
                   "v" ++ ":" ++ resolveParam t (Nat.repr 0x001D) ++ ","])
      = christieOnUrl ip ++ "," := by
    simp only [String.join, List.foldl, christieOnUrl, str_assoc]
    rfl
  rw [h1, h2]
  exact congrArg some (removeTrailingJoiner_append (christieOnUrl ip) ',')

theorem christie_claim_off (ip : String) (t : Nat) :
    claim_assemble ip christieLib "power_off" t = some (christieOffUrl ip) := by
  have h1 : claim_assemble ip christieLib "power_off" t =
      some (removeTrailingJoiner
        (("http://" ++ "user" ++ ":" ++ "1978" ++ "@" ++ ip ++ "/cgi-bin/webctrl.cgi.elf?&") ++
          String.join ["p" ++ ":" ++ resolveParam t (Nat.repr 0x01) ++ ",",
                       "c" ++ ":" ++ resolveParam t (Nat.repr 0x1213) ++ ",",
                       "v" ++ ":" ++ resolveParam t (Nat.repr 2) ++ ",",
                       "v" ++ ":" ++ resolveParam t (Nat.repr 0x001E) ++ ","]) ",") := rfl
  have h2 : (("http://" ++ "user" ++ ":" ++ "1978" ++ "@" ++ ip ++ "/cgi-bin/webctrl.cgi.elf?&") ++
      String.join ["p" ++ ":" ++ resolveParam t (Nat.repr 0x01) ++ ",",
                   "c" ++ ":" ++ resolveParam t (Nat.repr 0x1213) ++ ",",
                   "v" ++ ":" ++ resolveParam t (Nat.repr 2) ++ ",",
                   "v" ++ ":" ++ resolveParam t (Nat.repr 0x001E) ++ ","])
      = christieOffUrl ip ++ "," := by
    simp only [String.join, List.foldl, christieOffUrl, str_assoc]
    rfl
  rw [h1, h2]
  exact congrArg some (removeTrailingJoiner_append (christieOffUrl ip) ',')

theorem epsonPowerUrl_no_trailing_joiner (ip : String) (t : Nat) :
    endsInJoiner (epsonPowerUrl ip t) "&" = false := by
  have hg : (epsonPowerUrl ip t).data.getLast? = (Nat.repr t).data.getLast? := by
    rw [show (epsonPowerUrl ip t).data
        = ("http://EPSONWEB:ADMIN@" ++ ip ++ "/cgi-bin/directsend?KEY=3B&_=").data
            ++ (Nat.repr t).data from rfl]
    exact List.getLast?_append_of_ne_nil _ (repr_ne_nil t)
  unfold endsInJoiner
  rw [hg]
  cases hc : (Nat.repr t).data.getLast? with
  | none => rfl
  | some c =>
    have hmem : c ∈ "0123456789abcdef*".data := by
      have := repr_getLast_hex t c hc
      simpa using this
    fin_cases hmem <;> decide

theorem christieOnUrl_no_trailing_joiner (ip : String) :
    endsInJoiner (christieOnUrl ip) "," = false := by
  have hg : (christieOnUrl ip).data.getLast? = some '9' := by
    rw [show (christieOnUrl ip).data = ("http://user:1978@" ++ ip).data
        ++ ("/cgi-bin/webctrl.cgi.elf?&p:1,c:4627,v:2,v:29".data) from rfl]
    rw [List.getLast?_append_of_ne_nil _ (by decide)]
    rfl
  unfold endsInJoiner
  rw [hg]
  decide

theorem christieOffUrl_no_trailing_joiner (ip : String) :
    endsInJoiner (christieOffUrl ip) "," = false := by
  have hg : (christieOffUrl ip).data.getLast? = some '0' := by
    rw [show (christieOffUrl ip).data = ("http://user:1978@" ++ ip).data
        ++ ("/cgi-bin/webctrl.cgi.elf?&p:1,c:4627,v:2,v:30".data) from rfl]
    rw [List.getLast?_append_of_ne_nil _ (by decide)]
    rfl
  unfold endsInJoiner
  rw [hg]
  decide

/-! ## Claim theorems -/

/-- C1: for both vendor adapters and every input, `request_status` is a
total Boolean function (never raises past the adapter boundary) that
returns `true` exactly on the vendor's positive, confidently-parsed "on"
signal — for christie a received, JSON-parsed body whose `data[0]["val"]`
equals `[1]`; for epson a received body free of the standby marker — and
therefore returns `false` on every transport failure (`resp = none`),
every parse failure, and every parsed standby/"off" signal. -/
theorem adapters_status_contract :
    (∀ (u p ip : String) (resp : Option Json),
      christie_request_status u p ip resp = true ↔
        ∃ data d0 v, resp = some data ∧ jsonIndex0 data = Except.ok d0 ∧
          jsonField "val" d0 = Except.ok v ∧ pyEq v (Json.arr [Json.num 1]) = true)
    ∧ (∀ (u p ip : String) (resp : Option String),
      epson_request_status u p ip resp = true ↔
        ∃ text, resp = some text ∧ containsSub text standbyMarker = false) := by
  constructor
  · intro u p ip resp
    cases resp with
    | none => simp [christie_request_status, chrStatusTry]
    | some data =>
      cases hd0 : jsonIndex0 data with
      | error e => simp [christie_request_status, chrStatusTry, hd0]
      | ok d0 =>
        cases hv : jsonField "val" d0 with
        | error e => simp [christie_request_status, chrStatusTry, hd0, hv]
        | ok v => simp [christie_request_status, chrStatusTry, hd0, hv]
  · intro u p ip resp
    cases resp with
    | none => simp [epson_request_status]
    | some text =>
      by_cases hst : containsSub text standbyMarker
      · simp [epson_request_status, hst]
      · simp [epson_request_status, hst]

/-- C7: the christie numeric-code-to-label mapping is a fixed lookup:
code 3 yields "HDMI 1", code 19 yields "DisplayPort", and the unmapped
code 999 yields the Python value `False` (no exception is raised). -/
theorem christie_source_code_table :
    christie_request_source "user" "1978" "192.168.0.28"
        (some (.arr [.obj [("val", .arr [.num 3])]])) = .strVal "HDMI 1"
    ∧ christie_request_source "user" "1978" "192.168.0.28"
        (some (.arr [.obj [("val", .arr [.num 19])]])) = .strVal "DisplayPort"
    ∧ christie_request_source "user" "1978" "192.168.0.28"
        (some (.arr [.obj [("val", .arr [.num 999])]])) = .boolVal false :=
  ⟨rfl, rfl, rfl⟩

/-- C10: `projectors/epson.py` is syntactically invalid Python (its stray
top-level line 43 juxtaposes the two bare non-keyword names
`cycle between`), so the registry's dynamic import of "epson" raises and
`Projector.__init__` fails for every address: no `on`/`off`/`status`/
`source` operation on an epson `Projector` is ever reachable. -/
theorem epson_module_unimportable :
    (∀ ip : String, Projector.init ip "epson" = .error "SyntaxError")
    ∧ (∀ ip : String, (Projector.init ip "epson").isOk = false)
    ∧ hasJuxtaposedNames epsonStrayLine43 = true :=
  ⟨fun ip => rfl, fun ip => rfl, by decide⟩

/-- C8, code-bug evidence: `Projector.status` passes the vendor module's
`default_login` to `request_status` even when a per-device credential
override is present; the spec's effective-credential resolution
(override else default) would pass the override. -/
theorem status_ignores_credential_override :
    Projector.statusCredentials
        { ip := "10.0.0.5", projector_type := "christie", projector_lib := christieLib,
          username_override := some "alice", password_override := some "secret" }
      = ("user", "1978", "10.0.0.5")
    ∧ spec_effective_credentials
        { ip := "10.0.0.5", projector_type := "christie", projector_lib := christieLib,
          username_override := some "alice", password_override := some "secret" }
      = ("alice", "secret")
    ∧ ((Projector.statusCredentials
        { ip := "10.0.0.5", projector_type := "christie", projector_lib := christieLib,
          username_override := some "alice", password_override := some "secret" }).1
      == (spec_effective_credentials
        { ip := "10.0.0.5", projector_type := "christie", projector_lib := christieLib,
          username_override := some "alice", password_override := some "secret" }).1) = false :=
  ⟨rfl, rfl, rfl⟩

theorem christieSourceLabel_cases (v : Json) :
    (∃ s, christieSourceLabel v = .strVal s) ∨ christieSourceLabel v = .boolVal false := by
  unfold christieSourceLabel
  repeat' split
  all_goals first
    | exact Or.inl ⟨_, rfl⟩
    | exact Or.inr rfl

theorem chrSourceTry_ok_shape (resp : Option Json) (r : PyRet)
    (h : chrSourceTry resp = .ok r) :
    (∃ s, r = .strVal s) ∨ r = .boolVal false := by
  cases resp with
  | none => simp [chrSourceTry] at h
  | some data =>
    cases hd0 : jsonIndex0 data with
    | error e => simp [chrSourceTry, hd0] at h
    | ok d0 =>
      cases hv : jsonField "val" d0 with
      | error e => simp [chrSourceTry, hd0, hv] at h
      | ok v =>
        cases hsrc : jsonIndex0 v with
        | error e => simp [chrSourceTry, hd0, hv, hsrc] at h
        | ok source =>
          simp [chrSourceTry, hd0, hv, hsrc] at h
          exact h ▸ christieSourceLabel_cases source

/-- C2 counterexample: for the successfully parsed christie response
`[{"val": [999]}]` — an unmapped numeric status code — `request_source`
returns the Python value `False`, which is neither `None` nor a string,
contradicting the claim that every parse miss yields `null`. -/
theorem request_source_unmapped_not_none :
    christie_request_source "user" "1978" "192.168.0.28"
        (some (.arr [.obj [("val", .arr [.num 999])]])) = .boolVal false
    ∧ PyRet.isNone (.boolVal false) = false
    ∧ PyRet.isStr (.boolVal false) = false :=
  ⟨rfl, rfl, rfl⟩

/-- C2 amended: neither adapter's `request_source` raises; both return
`None` on a transport failure, and epson returns `None` on standby.  On a
received, parsed response: christie returns `None` on any parse failure, a
normalized label string for a mapped code, but the Python value `False`
(not `None`) for an unmapped code; epson returns the scraped window
string (possibly empty or garbage on a parse miss) rather than `None`. -/
theorem request_source_amended_contract :
    (∀ u p ip : String, christie_request_source u p ip none = .noneVal)
    ∧ (∀ (u p ip : String) (data : Json) (e : Unit),
        chrSourceTry (some data) = .error e →
          christie_request_source u p ip (some data) = .noneVal)
    ∧ (∀ (u p ip : String) (data : Json) (r : PyRet),
        chrSourceTry (some data) = .ok r →
          christie_request_source u p ip (some data) = r
            ∧ ((∃ s, r = .strVal s) ∨ r = .boolVal false))
    ∧ (∀ u p ip : String, epson_request_source u p ip none = .noneVal)
    ∧ (∀ u p ip text : String, containsSub text standbyMarker = true →
        epson_request_source u p ip (some text) = .noneVal)
    ∧ (∀ u p ip text : String, containsSub text standbyMarker = false →
        epson_request_source u p ip (some text) = .strVal (epsonScrape text)) := by
  refine ⟨fun u p ip => rfl, ?_, ?_, fun u p ip => rfl, ?_, ?_⟩
  · intro u p ip data e h
    simp [christie_request_source, h]
  · intro u p ip data r h
    exact ⟨by simp [christie_request_source, h], chrSourceTry_ok_shape _ r h⟩
  · intro u p ip text h
    simp [epson_request_source, h]
  · intro u p ip text h
    simp [epson_request_source, h]

theorem request_source_amended_contract_witness :
    christie_request_source "user" "1978" "192.168.0.28" (some Json.null) = .noneVal
    ∧ christie_request_source "user" "1978" "192.168.0.28"
        (some (.arr [.obj [("val", .arr [.num 999])]])) = .boolVal false
    ∧ epson_request_source "EPSONWEB" "ADMIN" "192.168.0.27" (some standbyMarker) = .noneVal
    ∧ epson_request_source "EPSONWEB" "ADMIN" "192.168.0.27" (some "hello") = .strVal "" := by
  refine ⟨?_, ?_, ?_, ?_⟩
  · exact request_source_amended_contract.2.1 "user" "1978" "192.168.0.28" Json.null () rfl
  · exact (request_source_amended_contract.2.2.1 "user" "1978" "192.168.0.28"
      (.arr [.obj [("val", .arr [.num 999])]]) (.boolVal false) rfl).1
  · exact request_source_amended_contract.2.2.2.2.1 "EPSONWEB" "ADMIN" "192.168.0.27"
      standbyMarker (by decide)
  · have h := request_source_amended_contract.2.2.2.2.2 "EPSONWEB" "ADMIN" "192.168.0.27"
      "hello" (by decide)
    rw [h]
    rfl

/-- A body in the shape the spec's example describes: the anchor `Source`
at index 3, padding, the label inside the scrape window
`[idx+155, idx+165)`, then an HTML tag. -/
def epsonHappyBody : String :=
  "<p>Source</b>" ++ ⟨List.replicate 145 ' '⟩ ++ "  HDMI1   " ++ "<br>"

/-- C6 counterexample: for the body "hello" the anchor `Source` is absent
and the response is far shorter than the scrape window, yet
`epson.request_source` returns the empty string — a scraped garbage
value, not `None` — contradicting the claim that a failed extraction
yields `null`. -/
theorem epson_source_anchor_missing_not_none :
    epson_request_source "EPSONWEB" "ADMIN" "192.168.0.27" (some "hello") = .strVal ""
    ∧ PyRet.isNone (.strVal "") = false :=
  ⟨rfl, rfl⟩

set_option maxRecDepth 8192 in
/-- C6 amended: `epson.request_source` never raises; it returns `None` on
a transport failure or whenever the body contains the standby marker, and
otherwise returns the scraped string: the window `[idx+155, idx+165)`
after the `Source` anchor, space-stripped and cut at the first `<`.  When
the anchor is absent (`idx = -1`) the same scrape is taken from the
fallback window `[154, 164)` — the empty string for a short body — and
that possibly empty or garbage string is returned instead of `None`. -/
theorem epson_source_scrape_amended :
    (∀ u p ip : String, epson_request_source u p ip none = .noneVal)
    ∧ (∀ u p ip text : String, containsSub text standbyMarker = true →
        epson_request_source u p ip (some text) = .noneVal)
    ∧ (∀ u p ip text : String, containsSub text standbyMarker = false →
        epson_request_source u p ip (some text) = .strVal (epsonScrape text))
    ∧ epson_request_source "EPSONWEB" "ADMIN" "192.168.0.27" (some epsonHappyBody)
        = .strVal "HDMI1"
    ∧ epson_request_source "EPSONWEB" "ADMIN" "192.168.0.27" (some "hello") = .strVal "" := by
  refine ⟨fun u p ip => rfl, ?_, ?_, ?_, rfl⟩
  · intro u p ip text h
    simp [epson_request_source, h]
  · intro u p ip text h
    simp [epson_request_source, h]
  · rfl

theorem epson_source_scrape_amended_witness :
    epson_request_source "EPSONWEB" "ADMIN" "192.168.0.27"
        (some ("x" ++ standbyMarker)) = .noneVal
    ∧ epson_request_source "EPSONWEB" "ADMIN" "192.168.0.27"
        (some "no anchor here") = .strVal (epsonScrape "no anchor here") := by
  constructor
  · exact epson_source_scrape_amended.2.1 "EPSONWEB" "ADMIN" "192.168.0.27"
      ("x" ++ standbyMarker) (by decide)
  · exact epson_source_scrape_amended.2.2.1 "EPSONWEB" "ADMIN" "192.168.0.27"
      "no anchor here" (by decide)

/-- C5: with the `duplicate` (send-twice) flag set — the epson `power_off`
command — `off()` dispatches exactly 2 HTTP requests, reassembling the URL
with a freshly computed timestamp for the second send (`t2`, the clock
reading after the 500 ms sleep, numerically greater than the first
reading `t1`); the two URLs share the entire prefix and differ only in
the timestamp parameter's value.  With the flag unset (epson `power_on`,
both christie power commands) exactly 1 request is dispatched. -/
theorem send_twice_dispatch (ip : String) (t1 t2 : Nat) (h : t1 < t2) :
    off_requests ip epsonLib t1 t2 = [epsonPowerUrl ip t1, epsonPowerUrl ip t2]
    ∧ (off_requests ip epsonLib t1 t2).length = 2
    ∧ on_requests ip epsonLib t1 t2 = [epsonPowerUrl ip t1]
    ∧ (on_requests ip epsonLib t1 t2).length = 1
    ∧ on_requests ip christieLib t1 t2 = [christieOnUrl ip]
    ∧ off_requests ip christieLib t1 t2 = [christieOffUrl ip]
    ∧ (∃ pre : String, epsonPowerUrl ip t1 = pre ++ Nat.repr t1
        ∧ epsonPowerUrl ip t2 = pre ++ Nat.repr t2)
    ∧ t1 < t2 := by
  have hoff : off_requests ip epsonLib t1 t2
      = [epsonPowerUrl ip t1, epsonPowerUrl ip t2] := by
    unfold off_requests sendSequence
    rw [epson_gen_off ip t1, epson_gen_off ip t2]
    rfl
  have hon : on_requests ip epsonLib t1 t2 = [epsonPowerUrl ip t1] := by
    unfold on_requests sendSequence
    rw [epson_gen_on ip t1, epson_gen_on ip t2]
    rfl
  have hchron : on_requests ip christieLib t1 t2 = [christieOnUrl ip] := by
    unfold on_requests sendSequence
    rw [christie_gen_on ip t1, christie_gen_on ip t2]
    rfl
  have hchroff : off_requests ip christieLib t1 t2 = [christieOffUrl ip] := by
    unfold off_requests sendSequence
    rw [christie_gen_off ip t1, christie_gen_off ip t2]
    rfl
  refine ⟨hoff, by rw [hoff]; rfl, hon, by rw [hon]; rfl, hchron, hchroff,
    ⟨"http://EPSONWEB:ADMIN@" ++ ip ++ "/cgi-bin/directsend?KEY=3B&_=", rfl, rfl⟩, h⟩

theorem send_twice_dispatch_witness :
    (1000 : Nat) < 1700
    ∧ off_requests "192.168.0.28" epsonLib 1000 1700
        = [epsonPowerUrl "192.168.0.28" 1000, epsonPowerUrl "192.168.0.28" 1700] :=
  ⟨by decide, (send_twice_dispatch "192.168.0.28" 1000 1700 (by decide)).1⟩

/-- C4: for every command of both vendor catalogs (the four power
commands), `generate_command` produces exactly the URL described by the
claim's algorithm — start from the credential-embedded path, append
`key + kv_joiner + resolved value + pair_joiner` per parameter in order
(resolving the `$$time` sentinel to the call-time timestamp), then remove
the trailing pair joiner (`claim_assemble`) — together with the command's
mode and duplicate flag, and the generated URL never ends in a
pair-joiner character. -/
theorem generate_command_url_assembly (ip : String) (t : Nat) :
    (generate_command ip christieLib "power_on" t = some (christieOnUrl ip, "post", false)
      ∧ claim_assemble ip christieLib "power_on" t = some (christieOnUrl ip)
      ∧ endsInJoiner (christieOnUrl ip) "," = false)
    ∧ (generate_command ip christieLib "power_off" t = some (christieOffUrl ip, "post", false)
      ∧ claim_assemble ip christieLib "power_off" t = some (christieOffUrl ip)
      ∧ endsInJoiner (christieOffUrl ip) "," = false)
    ∧ (generate_command ip epsonLib "power_on" t = some (epsonPowerUrl ip t, "get", false)
      ∧ claim_assemble ip epsonLib "power_on" t = some (epsonPowerUrl ip t)
      ∧ endsInJoiner (epsonPowerUrl ip t) "&" = false)
    ∧ (generate_command ip epsonLib "power_off" t = some (epsonPowerUrl ip t, "get", true)
      ∧ claim_assemble ip epsonLib "power_off" t = some (epsonPowerUrl ip t)
      ∧ endsInJoiner (epsonPowerUrl ip t) "&" = false) :=
  ⟨⟨christie_gen_on ip t, christie_claim_on ip t, christieOnUrl_no_trailing_joiner ip⟩,
   ⟨christie_gen_off ip t, christie_claim_off ip t, christieOffUrl_no_trailing_joiner ip⟩,
   ⟨epson_gen_on ip t, epson_claim_on ip t, epsonPowerUrl_no_trailing_joiner ip t⟩,
   ⟨epson_gen_off ip t, epson_claim_off ip t, epsonPowerUrl_no_trailing_joiner ip t⟩⟩

theorem cycleLoopAux_ok (name : String) (observe : Nat → Option String) :
    ∀ (fuel pressed k : Nat), cycleLoopAux name observe fuel pressed = .ok k →
      pressed + 1 ≤ k ∧ k ≤ pressed + fuel ∧ observe k = some name
        ∧ ∀ j, pressed + 1 ≤ j → j < k → observe j ≠ some name := by
  intro fuel
  induction fuel with
  | zero =>
    intro pressed k h
    exact absurd h (by simp [cycleLoopAux])
  | succ fuel ih =>
    intro pressed k h
    unfold cycleLoopAux at h
    by_cases hobs : observe (pressed + 1) = some name
    · rw [if_pos hobs] at h
      have hk : pressed + 1 = k := by
        injection h
      subst hk
      exact ⟨le_refl _, by omega, hobs, fun j hj1 hj2 => by omega⟩
    · rw [if_neg hobs] at h
      obtain ⟨h1, h2, h3, h4⟩ := ih (pressed + 1) k h
      refine ⟨by omega, by omega, h3, fun j hj1 hj2 => ?_⟩
      by_cases hj : j = pressed + 1
      · exact hj ▸ hobs
      · exact h4 j (by omega) hj2

theorem cycleLoopAux_exhausted (name : String) (observe : Nat → Option String) :
    ∀ (fuel pressed pr : Nat), cycleLoopAux name observe fuel pressed = .exhausted pr →
      pr = pressed + fuel := by
  intro fuel
  induction fuel with
  | zero =>
    intro pressed pr h
    unfold cycleLoopAux at h
    injection h with h
    omega
  | succ fuel ih =>
    intro pressed pr h
    unfold cycleLoopAux at h
    by_cases hobs : observe (pressed + 1) = some name
    · rw [if_pos hobs] at h
      exact absurd h (by simp)
    · rw [if_neg hobs] at h
      have := ih (pressed + 1) pr h
      omega

/-- C3: `set_source` on a cycle-only catalog (modelled from the spec, see
`set_source_cycle`): when the requested label is absent from the target
list it fails with the distinguishable `notInList` condition before any
cycle press; when it succeeds after `k` presses, `k` is at most the
length of the target list, the device's probe reports the target after
press `k` and after no earlier press (so a device reporting the target
after exactly 2 presses receives exactly 2 cycle commands); and when the
press budget is exhausted, exactly `targets.length` presses were
issued. -/
theorem set_source_cycle_contract (targets : List String) (name : String)
    (observe : Nat → Option String) :
    (targets.contains name = false → set_source_cycle targets name observe = .notInList)
    ∧ (∀ k, set_source_cycle targets name observe = .ok k →
        1 ≤ k ∧ k ≤ targets.length ∧ observe k = some name
          ∧ ∀ j, 1 ≤ j → j < k → observe j ≠ some name)
    ∧ (∀ pr, set_source_cycle targets name observe = .exhausted pr →
        pr = targets.length) := by
  refine ⟨?_, ?_, ?_⟩
  · intro h
    unfold set_source_cycle
    rw [h]
    rfl
  · intro k h
    unfold set_source_cycle at h
    by_cases hmem : targets.contains name
    · rw [if_pos hmem] at h
      have := cycleLoopAux_ok name observe targets.length 0 k h
      simpa using this
    · rw [if_neg hmem] at h
      exact absurd h (by simp)
  · intro pr h
    unfold set_source_cycle at h
    by_cases hmem : targets.contains name
    · rw [if_pos hmem] at h
      have := cycleLoopAux_exhausted name observe targets.length 0 pr h
      simpa using this
    · rw [if_neg hmem] at h
      exact absurd h (by simp)

/-- The spec's worked example: a four-entry cycle list. -/
def exampleTargets : List String := ["HDMI1", "HDMI2", "S-Video", "Video"]

/-- A device that reports "HDMI1" before any effective advance and
"HDMI2" from the second press on. -/
def exampleObserve : Nat → Option String :=
  fun presses => if presses ≤ 1 then some "HDMI1" else some "HDMI2"

theorem set_source_cycle_contract_witness :
    set_source_cycle exampleTargets "HDMI2" exampleObserve = .ok 2
    ∧ exampleObserve 2 = some "HDMI2"
    ∧ (2 : Nat) ≤ exampleTargets.length
    ∧ set_source_cycle exampleTargets "Composite" exampleObserve = .notInList := by
  have hok : set_source_cycle exampleTargets "HDMI2" exampleObserve = .ok 2 := by decide
  obtain ⟨-, h2, h3, -⟩ :=
    (set_source_cycle_contract exampleTargets "HDMI2" exampleObserve).2.1 2 hok
  exact ⟨hok, h3, h2,
    (set_source_cycle_contract exampleTargets "Composite" exampleObserve).1 (by decide)⟩

theorem setKey_get_ne : ∀ (d : Dict) (k k' : String) (v : Json), k ≠ k' →
    dictGet (setKey d k' v) k = dictGet d k := by
  intro d
  induction d with
  | nil =>
    intro k k' v h
    simp [setKey, dictGet, h]
  | cons kv rest ih =>
    intro k k' v h
    obtain ⟨a, b⟩ := kv
    by_cases hak : a = k'
    · subst hak
      show dictGet (if a = a then (a, v) :: rest else (a, b) :: setKey rest a v) k
          = dictGet ((a, b) :: rest) k
      rw [if_pos rfl]
      show (if k = a then some v else dictGet rest k)
          = if k = a then some b else dictGet rest k
      rw [if_neg h, if_neg h]
    · show dictGet (if a = k' then (k', v) :: rest else (a, b) :: setKey rest k' v) k
          = dictGet ((a, b) :: rest) k
      rw [if_neg hak]
      show (if k = a then some b else dictGet (setKey rest k' v) k)
          = if k = a then some b else dictGet rest k
      rw [ih k k' v h]

theorem dictUpdate_get_not_mem : ∀ (u d : Dict) (k : String),
    (∀ kv ∈ u, k ≠ kv.1) → dictGet (dictUpdate d u) k = dictGet d k := by
  intro u
  induction u with
  | nil => intro d k h; rfl
  | cons kv rest ih =>
    intro d k h
    show dictGet (dictUpdate (setKey d kv.1 kv.2) rest) k = dictGet d k
    rw [ih (setKey d kv.1 kv.2) k (fun x hx => h x (List.mem_cons_of_mem kv hx))]
    exact setKey_get_ne d k kv.1 kv.2 (h kv (List.mem_cons_self kv rest))

theorem setKey_self : ∀ (d : Dict) (k : String) (v : Json),
    dictGet d k = some v → setKey d k v = d := by
  intro d
  induction d with
  | nil =>
    intro k v h
    exact absurd h (by simp [dictGet])
  | cons kv rest ih =>
    intro k v h
    obtain ⟨a, b⟩ := kv
    by_cases hka : k = a
    · have hb : b = v := by
        have hsome : some b = some v := by simpa [dictGet, hka] using h
        exact Option.some_inj.mp hsome
      subst hb
      show (if a = k then (k, b) :: rest else (a, b) :: setKey rest k b) = (a, b) :: rest
      rw [if_pos hka.symm, hka]
    · have h' : dictGet rest k = some v := by simpa [dictGet, hka] using h
      show (if a = k then (k, v) :: rest else (a, b) :: setKey rest k v) = (a, b) :: rest
      rw [if_neg (fun hh => hka hh.symm), ih k v h']

theorem dictUpdate_self : ∀ (u d : Dict),
    (∀ kv ∈ u, dictGet d kv.1 = some kv.2) → dictUpdate d u = d := by
  intro u
  induction u with
  | nil => intro d h; rfl
  | cons kv rest ih =>
    intro d h
    show dictUpdate (setKey d kv.1 kv.2) rest = d
    rw [setKey_self d kv.1 kv.2 (h kv (List.mem_cons_self kv rest))]
    exact ih d (fun x hx => h x (List.mem_cons_of_mem kv hx))

theorem save_length : ∀ (resolved : List Dict) (frames : List FrameSettings),
    (save_names_write_back resolved frames).length = resolved.length := by
  intro resolved
  induction resolved with
  | nil => intro frames; cases frames <;> rfl
  | cons e rest ih =>
    intro frames
    cases frames with
    | nil => rfl
    | cons f fs =>
      show (dictUpdate e f.toDict :: save_names_write_back rest fs).length
          = (e :: rest).length
      simp [ih fs]

theorem save_getElem? : ∀ (resolved : List Dict) (frames : List FrameSettings) (i : Nat),
    (save_names_write_back resolved frames)[i]? =
      match frames[i]? with
      | some f => (resolved[i]?).map fun e => dictUpdate e f.toDict
      | none => resolved[i]? := by
  intro resolved
  induction resolved with
  | nil =>
    intro frames i
    cases hf : frames[i]? <;> simp [save_names_write_back]
  | cons e rest ih =>
    intro frames i
    cases frames with
    | nil => simp [save_names_write_back]
    | cons f fs =>
      cases i with
      | zero => simp [save_names_write_back]
      | succ i =>
        show (dictUpdate e f.toDict :: save_names_write_back rest fs)[i + 1]? = _
        simp only [List.getElem?_cons_succ]
        exact ih fs i

theorem toDict_keys_ne (f : FrameSettings) (k : String) (hk : k ∉ exportedKeys) :
    ∀ kv ∈ f.toDict, k ≠ kv.1 := by
  intro kv hkv
  simp [exportedKeys] at hk
  obtain ⟨h1, h2, h3, h4, h5⟩ := hk
  simp [FrameSettings.toDict] at hkv
  rcases hkv with h | h | h | h | h <;> rw [h] <;> simp_all

/-- C9: the shutdown write-back updates, for each index that has both a
loaded entry and a live frame, exactly the five exported keys (`name`,
`ip`, `projector_type`, `username`, `password`) of the corresponding
entry, preserving every other key's value, preserving the array's length
(and, entrywise, its order — entry `i` of the output is derived from
entry `i` of the input), never adding or removing entries, and leaving
entries beyond the frame list untouched; an entry whose exported fields
already equal the frame's values is written back unchanged, so a
round trip that edits one record leaves every other record identical. -/
theorem save_write_back_frame_effect (resolved : List Dict) (frames : List FrameSettings) :
    (save_names_write_back resolved frames).length = resolved.length
    ∧ (∀ i : Nat, frames.length ≤ i →
        (save_names_write_back resolved frames)[i]? = resolved[i]?)
    ∧ (∀ (i : Nat) (entry entry' : Dict) (k : String),
        resolved[i]? = some entry →
        (save_names_write_back resolved frames)[i]? = some entry' →
        k ∉ exportedKeys → dictGet entry' k = dictGet entry k)
    ∧ (∀ (i : Nat) (entry : Dict) (f : FrameSettings),
        resolved[i]? = some entry → frames[i]? = some f →
        (save_names_write_back resolved frames)[i]? = some (dictUpdate entry f.toDict))
    ∧ (∀ (i : Nat) (entry : Dict) (f : FrameSettings),
        resolved[i]? = some entry → frames[i]? = some f →
        (∀ kv ∈ f.toDict, dictGet entry kv.1 = some kv.2) →
        (save_names_write_back resolved frames)[i]? = some entry) := by
  refine ⟨save_length resolved frames, ?_, ?_, ?_, ?_⟩
  · intro i hi
    rw [save_getElem? resolved frames i, List.getElem?_eq_none hi]
  · intro i entry entry' k hres hout hk
    rw [save_getElem? resolved frames i, hres] at hout
    cases hf : frames[i]? with
    | none =>
      rw [hf] at hout
      have : entry = entry' := Option.some_inj.mp hout
      rw [← this]
    | some f =>
      rw [hf] at hout
      have : dictUpdate entry f.toDict = entry' := Option.some_inj.mp (by simpa using hout)
      rw [← this]
      exact dictUpdate_get_not_mem f.toDict entry k (toDict_keys_ne f k hk)
  · intro i entry f hres hf
    rw [save_getElem? resolved frames i, hres, hf]
    rfl
  · intro i entry f hres hf hsame
    rw [save_getElem? resolved frames i, hres, hf]
    show some (dictUpdate entry f.toDict) = some entry
    rw [dictUpdate_self f.toDict entry hsame]

def exEntry0 : Dict :=
  [("name", .str "Main Hall"), ("location", .str "lab"), ("ip", .str "1.2.3.4"),
   ("projector_type", .str "christie"), ("username", .str ""), ("password", .str "")]

def exEntry1 : Dict :=
  [("name", .str "Annex"), ("ip", .str "2.2.2.2"), ("projector_type", .str "epson"),
   ("username", .str ""), ("password", .str ""), ("zoom", .num 3)]

def exFrame0 : FrameSettings :=
  { name := "New Name", ip := "9.9.9.9", projector_type := "christie"
    username := "", password := "" }

def exFrame1 : FrameSettings :=
  { name := "Annex", ip := "2.2.2.2", projector_type := "epson"
    username := "", password := "" }

theorem save_write_back_frame_effect_witness :
    (save_names_write_back [exEntry0, exEntry1] [exFrame0, exFrame1]).length = 2
    ∧ dictGet (dictUpdate exEntry0 exFrame0.toDict) "location" = dictGet exEntry0 "location"
    ∧ (save_names_write_back [exEntry0, exEntry1] [exFrame0, exFrame1])[1]? = some exEntry1 := by
  have hthm := save_write_back_frame_effect [exEntry0, exEntry1] [exFrame0, exFrame1]
  refine ⟨hthm.1, ?_, ?_⟩
  · exact hthm.2.2.1 0 exEntry0 (dictUpdate exEntry0 exFrame0.toDict) "location"
      rfl rfl (by decide)
  · refine hthm.2.2.2.2 1 exEntry1 exFrame1 rfl rfl ?_
    intro kv hkv
    simp [exFrame1, FrameSettings.toDict] at hkv
    rcases hkv with h | h | h | h | h <;> rw [h] <;> rfl
